import Mathlib

/- Verification of the vSphere cloud-provider disk logic
   (pkg/cloudprovider/providers/vsphere): a shallow embedding of the vclib
   VirtualMachine disk operations, the diskmanagers strategy dispatcher and
   the VM-UUID codec, together with theorems about their behaviour.

   Remote vSphere calls (device enumeration, reconfiguration submission,
   task wait, virtual-disk UUID queries, device add/remove) are modelled as
   time-indexed oracles collected in an environment record; each remote
   call consumes one time step, and the observable calls are recorded in an
   effect trace threaded through every operation. -/

set_option maxRecDepth 8000

deriving instance DecidableEq for Except

namespace VSphere

/-! ## Go string primitives

The Go standard-library string operations used by the source, modelled on
the underlying character list (the source only ever applies them to ASCII
data: identifiers, datastore paths, controller type names). -/

/-- Whitespace test backing strings.TrimSpace (ASCII fragment). -/
def isSpaceChar (c : Char) : Bool :=
  c == ' ' || c == '\t' || c == '\n' || c == '\r'

/-- strings.TrimSpace: strip leading and trailing whitespace. -/
def trimSpace (s : String) : String :=
  String.mk (((s.data.dropWhile isSpaceChar).reverse.dropWhile isSpaceChar).reverse)

/-- strings.HasPrefix. -/
def hasPrefixStr (s pre : String) : Bool :=
  pre.data.isPrefixOf s.data

/-- Go slicing s[n:] (character granularity; all inputs in scope are ASCII,
so byte and character offsets agree). -/
def dropChars (s : String) (n : Nat) : String :=
  String.mk (s.data.drop n)

/-- strings.Replace(s, string(c), emptyString, minusOne): remove every
occurrence of the character c. -/
def removeChar (s : String) (c : Char) : String :=
  String.mk (s.data.filter (fun x => x != c))

/-! ## UUID codec (vsphere_util.go) -/

/-- Error cases of getvmUUID (vsphere_util.go lines 88-96): the prefix
check failure and the payload length check failure. -/
inductive UUIDErr where
  | prefixMismatch
  | lengthCheckFailed
deriving DecidableEq

/-- Hex-digit test (the spec's notion of a hex character; the source's
length comparison is the only structural check on the payload, see
getvmUUID below). -/
def isHexChar (c : Char) : Bool :=
  ('0'.toNat ≤ c.toNat && c.toNat ≤ '9'.toNat) ||
    ('a'.toNat ≤ c.toNat && c.toNat ≤ 'f'.toNat) ||
    ('A'.toNat ≤ c.toNat && c.toNat ≤ 'F'.toNat)

/-- The known vendor prefix of a BIOS machine identifier. The constant
UUIDPrefix itself lives in vsphere.go, which is outside this excerpt, but
its value is fixed by the source comment in vsphere_util.go line 87:
check the uuid starts with "VMware-". -/
def UUIDPrefixStr : String := "VMware-"

/-- Dash re-insertion at offsets 8-4-4-4-12, mirroring the fmt.Sprintf
slicing in getvmUUID (vsphere_util.go line 98): uuid[0:8], uuid[8:12],
uuid[12:16], uuid[16:20], uuid[20:32], joined by hyphens. -/
def addDashes (u : String) : String :=
  String.mk (u.data.take 8 ++ '-' ::
    ((u.data.drop 8).take 4 ++ '-' ::
      ((u.data.drop 12).take 4 ++ '-' ::
        ((u.data.drop 16).take 4 ++ '-' :: (u.data.drop 20).take 12))))

/-- Payload extraction in getvmUUID (vsphere_util.go lines 92-93): strip
the vendor prefix from the already-trimmed identifier, then remove all
spaces and all hyphens. -/
def vmUUIDPayload (trimmed : String) : String :=
  removeChar (removeChar (dropChars trimmed UUIDPrefixStr.length) ' ') '-'

/-- getvmUUID (vsphere_util.go lines 79-100) as a function of the contents
of the platform UUID file; the ioutil.ReadFile step is modelled by passing
the file contents directly. Trims surrounding whitespace, requires the
vendor prefix, strips spaces and hyphens from the remainder, requires
exactly 32 remaining characters, and re-inserts dashes at 8-4-4-4-12. -/
def getvmUUID (uuidFromFile : String) : Except UUIDErr String :=
  let uuid := trimSpace uuidFromFile
  if hasPrefixStr uuid UUIDPrefixStr then
    if (vmUUIDPayload uuid).length == 32 then
      Except.ok (addDashes (vmUUIDPayload uuid))
    else
      Except.error UUIDErr.lengthCheckFailed
  else
    Except.error UUIDErr.prefixMismatch

theorem addDashes_length (u : String) (h : u.length = 32) :
    (addDashes u).length = 36 := by
  have hd : u.data.length = 32 := h
  simp [addDashes, String.length, hd]

/-- C4: for every raw identifier that, after trimming surrounding
whitespace, begins with the vendor prefix and whose remainder after
removing spaces and hyphens is exactly 32 hex characters, getvmUUID
returns that payload with hyphens re-inserted at offsets 8,4,4,4,12 (a
36-character canonical dashed form) and no error. -/
theorem c4_normalize_uuid_success (raw : String)
    (hpre : hasPrefixStr (trimSpace raw) UUIDPrefixStr = true)
    (hlen : (vmUUIDPayload (trimSpace raw)).length = 32)
    (_hhex : (vmUUIDPayload (trimSpace raw)).data.all isHexChar = true) :
    getvmUUID raw = Except.ok (addDashes (vmUUIDPayload (trimSpace raw))) ∧
      (addDashes (vmUUIDPayload (trimSpace raw))).length = 36 := by
  refine ⟨?_, addDashes_length _ hlen⟩
  simp [getvmUUID, hpre, hlen]

theorem c4_normalize_uuid_success_witness :
    hasPrefixStr (trimSpace "VMware-56 4d 39 5e d8 07 e1 8a-cb 25 b7 9f 65 eb 2b 9f")
        UUIDPrefixStr = true ∧
      (vmUUIDPayload
        (trimSpace "VMware-56 4d 39 5e d8 07 e1 8a-cb 25 b7 9f 65 eb 2b 9f")).length = 32 ∧
      getvmUUID "VMware-56 4d 39 5e d8 07 e1 8a-cb 25 b7 9f 65 eb 2b 9f" =
        Except.ok "564d395e-d807-e18a-cb25-b79f65eb2b9f" := by
  refine ⟨by decide, by decide, ?_⟩
  have h := c4_normalize_uuid_success
    "VMware-56 4d 39 5e d8 07 e1 8a-cb 25 b7 9f 65 eb 2b 9f"
    (by decide) (by decide) (by decide)
  exact h.1.trans (by decide)

/-- C5 counterexample: the claim asserts getvmUUID fails for every payload
of length 32 that contains a non-hex character; in fact the source only
checks the length (vsphere_util.go line 94), so a 32-character non-hex
payload is accepted and reformatted. -/
theorem c5_counterexample :
    getvmUUID "VMware-zzzzzzzzzzzzzzzzzzzzzzzzzzzzzzzz" =
        Except.ok "zzzzzzzz-zzzz-zzzz-zzzz-zzzzzzzzzzzz" ∧
      (vmUUIDPayload (trimSpace "VMware-zzzzzzzzzzzzzzzzzzzzzzzzzzzzzzzz")).length = 32 ∧
      (vmUUIDPayload (trimSpace "VMware-zzzzzzzzzzzzzzzzzzzzzzzzzzzzzzzz")).data.all isHexChar
        = false := by
  refine ⟨by decide, by decide, by decide⟩

/-- C5 (amended): getvmUUID fails with the prefix-mismatch error for every
raw identifier that lacks the vendor prefix after whitespace trimming, and
with the length-check error for every raw identifier whose payload after
stripping spaces and hyphens is not exactly 32 characters; no
hex-character validation is performed. -/
theorem c5_normalize_uuid_failure (raw : String) :
    (hasPrefixStr (trimSpace raw) UUIDPrefixStr = false →
      getvmUUID raw = Except.error UUIDErr.prefixMismatch) ∧
    (hasPrefixStr (trimSpace raw) UUIDPrefixStr = true →
      (vmUUIDPayload (trimSpace raw)).length ≠ 32 →
      getvmUUID raw = Except.error UUIDErr.lengthCheckFailed) := by
  constructor
  · intro h
    simp [getvmUUID, h]
  · intro h hlen
    simp [getvmUUID, h, hlen]

theorem c5_normalize_uuid_failure_witness :
    (hasPrefixStr (trimSpace "564d395e") UUIDPrefixStr = false ∧
      getvmUUID "564d395e" = Except.error UUIDErr.prefixMismatch) ∧
    (hasPrefixStr (trimSpace "VMware-abcd") UUIDPrefixStr = true ∧
      (vmUUIDPayload (trimSpace "VMware-abcd")).length ≠ 32 ∧
      getvmUUID "VMware-abcd" = Except.error UUIDErr.lengthCheckFailed) := by
  refine ⟨⟨by decide, (c5_normalize_uuid_failure "564d395e").1 (by decide)⟩,
    ⟨by decide, by decide, (c5_normalize_uuid_failure "VMware-abcd").2
      (by decide) (by decide)⟩⟩

/-! ## Device, effect and environment model (vclib) -/

/-- A virtual device of the VM's device list. `typeName` is the vSphere
device type name (the source compares vmDevices.TypeName(device) against
"VirtualDisk", and govmomi's SelectByType selects by device type).
`backing` is `some uuid` exactly when the device carries a
VirtualDiskFlatVer2BackingInfo with that Uuid. `capacityUsed` is the
number of devices already attached to a controller (used by the
spec-modelled available-controller selection). -/
structure Device where
  name : String
  key : Int
  controllerKey : Int
  typeName : String
  backing : Option String
  hotAddRemove : Option Bool
  sharedBus : String
  capacityUsed : Nat
deriving DecidableEq

/-- Observable remote calls recorded while an operation runs. -/
inductive Effect where
  | reconfigureSubmit (withProfile : Bool)
  | createSCSIControllerCall (controllerType : String)
  | addDeviceCall (d : Device)
  | removeDeviceCall (d : Device)
  | deleteControllerCall
  | detachDiskCall (path : String)
deriving DecidableEq

/-- Error values of the vclib layer (ErrNoDevicesFound, ErrNoDiskUUIDFound
and ErrNoDiskIDFound are the package sentinel errors; the remaining
constructors stand for the distinct fmt.Errorf/remote errors). -/
inductive VCErr where
  | notSupported
  | errNoDevicesFound
  | errNoDiskUUIDFound
  | errNoDiskIDFound
  | deviceListFailed
  | reconfigureFailed
  | taskWaitFailed
  | scsiControllerLimitReached
  | createControllerFailed
  | addDeviceFailed
  | removeDeviceFailed
  | deviceNotFound (id : String)
  | cannotFindController
  | nilController
deriving DecidableEq

/-- Interpreter state: a logical clock (one step per remote call) and the
trace of observable effects so far. -/
structure St where
  time : Nat
  trace : List Effect
deriving DecidableEq

/-- The remote vSphere backend, as time-indexed oracles: the
server-authoritative device list returned by vm.Device (none = the fetch
fails), the QueryVirtualDiskUuid resolution, and the success of
reconfiguration submission, task wait, device add and device remove. -/
structure Env where
  devices : Nat → Option (List Device)
  queryUuid : Nat → String → Option String
  reconfigureOk : Nat → Bool
  taskWaitOk : Nat → Bool
  addDeviceOk : Nat → Bool
  removeDeviceOk : Nat → Bool

def tick (st : St) : St :=
  { st with time := st.time + 1 }

def emit (e : Effect) (st : St) : St :=
  { st with trace := st.trace ++ [e] }

/-! ## vclib constants and helpers not included in the excerpt -/

/-- Modelled from the spec: the small enumerated set of SCSI controller
bus type names (vclib constants, not under src/); used to recognise a
device as a SCSI controller. -/
def SCSIControllerTypeNames : List String :=
  ["scsi", "lsilogic", "buslogic", "pvscsi", "lsilogic-sas"]

/-- Modelled from the spec: the controller types a caller may request
(SCSIControllerValidType in vclib/utils.go, not under src/). -/
def SCSIControllerValidType : List String :=
  ["lsilogic", "pvscsi"]

/-- Modelled from the spec: CheckControllerSupported (vclib/utils.go, not
under src/) - membership of the requested type in the supported set. -/
def CheckControllerSupported (ctrlType : String) : Bool :=
  SCSIControllerValidType.contains ctrlType

/-- Modelled from the spec: the hard cap on SCSI controllers per VM
(SCSIControllerLimit, e.g. 4; vclib constants, not under src/). -/
def SCSIControllerLimit : Nat := 4

/-- Modelled from the spec: per-controller disk slot capacity
(vclib constants, not under src/). -/
def SCSIControllerDeviceLimit : Nat := 15

/-- Modelled from the spec: getSCSIControllers (vclib/utils.go, not under
src/) - filter the device list for devices matching the SCSI-controller
capability. -/
def getSCSIControllers (vmDevices : List Device) : List Device :=
  vmDevices.filter (fun d => SCSIControllerTypeNames.contains d.typeName)

/-- Modelled from the spec: formatVirtualDiskUUID (vclib/utils.go, not
under src/), the no-prefix reformatting variant of the UUID codec - it
strips internal spaces and hyphens from a backing-store identifier (spec
section 4.1, second variant). -/
def formatVirtualDiskUUID (uuid : String) : String :=
  removeChar (removeChar uuid ' ') '-'

/-- Modelled from govmomi VirtualDeviceList.CreateSCSIController: a local
device-list computation that yields a fresh unregistered controller device
of the requested bus type, failing on an unrecognised type. -/
def createSCSIControllerDevice (diskControllerType : String) : Option Device :=
  if SCSIControllerTypeNames.contains diskControllerType then
    some { name := "new-controller", key := -1, controllerKey := 0,
           typeName := diskControllerType, backing := none,
           hotAddRemove := none, sharedBus := "", capacityUsed := 0 }
  else
    none

/-! ## Remote call primitives -/

/-- vm.Device(ctx): fetch the live device list (remote read). -/
def getDevicesOp (env : Env) (st : St) : Except VCErr (List Device) × St :=
  match env.devices st.time with
  | some ds => (Except.ok ds, tick st)
  | none => (Except.error VCErr.deviceListFailed, tick st)

/-- VirtualDiskManager.QueryVirtualDiskUuid (remote read). -/
def queryUuidOp (env : Env) (st : St) (p : String) : Option String × St :=
  (env.queryUuid st.time p, tick st)

/-- vm.Reconfigure: submission of the device-change spec (remote write;
recorded in the trace). -/
def reconfigureOp (env : Env) (st : St) (withProfile : Bool) : Bool × St :=
  (env.reconfigureOk st.time, tick (emit (Effect.reconfigureSubmit withProfile) st))

/-- task.Wait(ctx) (remote). -/
def taskWaitOp (env : Env) (st : St) : Bool × St :=
  (env.taskWaitOk st.time, tick st)

/-- vm.AddDevice (remote write; recorded in the trace). -/
def addDeviceOp (env : Env) (st : St) (d : Device) : Bool × St :=
  (env.addDeviceOk st.time, tick (emit (Effect.addDeviceCall d) st))

/-- vm.RemoveDevice (remote write; recorded in the trace). -/
def removeDeviceOp (env : Env) (st : St) (d : Device) : Except VCErr Unit × St :=
  if env.removeDeviceOk st.time then
    (Except.ok (), tick (emit (Effect.removeDeviceCall d) st))
  else
    (Except.error VCErr.removeDeviceFailed, tick (emit (Effect.removeDeviceCall d) st))

/-! ## vclib VirtualMachine operations (src/unnamed/part_000) -/

/-- filepath.Ext: the suffix beginning at the final dot of the final
slash-separated element of the path; empty when that element has no dot. -/
def pathExt (p : String) : String :=
  let base := p.data.reverse.takeWhile (fun c => c != '/')
  if base.contains '.' then
    String.mk ('.' :: (base.takeWhile (fun c => c != '.')).reverse)
  else
    ""

/-- The path adjustment of GetVirtualDiskUUIDByPath (lines 44-46): append
the vmdk extension when the path is nonempty and lacks it. -/
def withVmdkExt (diskPath : String) : String :=
  if 0 < diskPath.length ∧ pathExt diskPath ≠ ".vmdk" then diskPath ++ ".vmdk"
  else diskPath

/-- getVirtualDiskUUIDByDevice (lines 59-66): the formatted backing UUID
of a device whose backing is a flat-ver2 backing info; the vclib helper
GetVirtualDiskUUIDByDevice used by GetVMDiskInfo (not under src/) behaves
the same way. -/
def getVirtualDiskUUIDByDevice (newDevice : Device) : Except VCErr String :=
  match newDevice.backing with
  | some uuid => Except.ok (formatVirtualDiskUUID uuid)
  | none => Except.error VCErr.errNoDiskUUIDFound

/-- The device scan of getVirtualDeviceByPath discards the per-device UUID
error (line 77), comparing the empty string for a disk without flat
backing. -/
def devDiskUUIDOrEmpty (d : Device) : String :=
  match getVirtualDiskUUIDByDevice d with
  | Except.ok uuid => uuid
  | Except.error _ => ""

/-- The per-device test of getVirtualDeviceByPath (lines 75-81):
vmDevices.TypeName(device) equals "VirtualDisk" and the device's (error
discarded) UUID equals the volume UUID. -/
def diskMatch (volumeUUID : String) (d : Device) : Bool :=
  d.typeName == "VirtualDisk" && devDiskUUIDOrEmpty d == volumeUUID

/-- GetVirtualDiskUUIDByPath (lines 43-57): normalise the path, query the
disk UUID remotely, and return it formatted; any query error is collapsed
to ErrNoDiskUUIDFound. -/
def GetVirtualDiskUUIDByPath (env : Env) (st : St) (diskPath : String) :
    Except VCErr String × St :=
  match queryUuidOp env st (withVmdkExt diskPath) with
  | (some diskUUID, st1) => (Except.ok (formatVirtualDiskUUID diskUUID), st1)
  | (none, st1) => (Except.error VCErr.errNoDiskUUIDFound, st1)

/-- getVirtualDeviceByPath (lines 68-84): resolve the path to a UUID, then
scan the given device list for the first matching virtual disk. -/
def getVirtualDeviceByPath (env : Env) (st : St) (vmDevices : List Device)
    (diskPath : String) : Except VCErr (Option Device) × St :=
  match GetVirtualDiskUUIDByPath env st diskPath with
  | (Except.error e, st1) => (Except.error e, st1)
  | (Except.ok volumeUUID, st1) =>
      (Except.ok (vmDevices.find? (diskMatch volumeUUID)), st1)

/-- GetVirtualDiskControllerKey (lines 87-101). -/
def GetVirtualDiskControllerKey (env : Env) (st : St) (diskPath : String) :
    Except VCErr Int × St :=
  match getDevicesOp env st with
  | (Except.error e, st1) => (Except.error e, st1)
  | (Except.ok vmDevices, st1) =>
      match getVirtualDeviceByPath env st1 vmDevices diskPath with
      | (Except.error e, st2) => (Except.error e, st2)
      | (Except.ok (some device), st2) => (Except.ok device.controllerKey, st2)
      | (Except.ok none, st2) => (Except.error VCErr.errNoDevicesFound, st2)

/-- IsDiskAttached (lines 20-31): ErrNoDevicesFound means not attached (no
error); any other error propagates; success means attached. -/
def IsDiskAttached (env : Env) (st : St) (diskPath : String) :
    Except VCErr Bool × St :=
  match GetVirtualDiskControllerKey env st diskPath with
  | (Except.ok _, st1) => (Except.ok true, st1)
  | (Except.error VCErr.errNoDevicesFound, st1) => (Except.ok false, st1)
  | (Except.error e, st1) => (Except.error e, st1)

/-- GetVirtualDiskID (lines 104-118): the device name (vmDevices.Name) of
the disk resolved by path. -/
def GetVirtualDiskID (env : Env) (st : St) (diskPath : String) :
    Except VCErr String × St :=
  match getDevicesOp env st with
  | (Except.error e, st1) => (Except.error e, st1)
  | (Except.ok vmDevices, st1) =>
      match getVirtualDeviceByPath env st1 vmDevices diskPath with
      | (Except.error e, st2) => (Except.error e, st2)
      | (Except.ok (some device), st2) => (Except.ok device.name, st2)
      | (Except.ok none, st2) => (Except.error VCErr.errNoDiskIDFound, st2)

/-- GetVMDiskInfo (lines 196-219): re-read the device list, select the
devices of the disk's type (govmomi SelectByType - a type filter, no
identity comparison), take the LAST one, and return its name and formatted
backing UUID. -/
def GetVMDiskInfo (env : Env) (st : St) (disk : Device) :
    Except VCErr (String × String) × St :=
  match getDevicesOp env st with
  | (Except.error e, st1) => (Except.error e, st1)
  | (Except.ok vmDevices, st1) =>
      let devices := vmDevices.filter (fun d => d.typeName == disk.typeName)
      match devices.getLast? with
      | none => (Except.error VCErr.errNoDevicesFound, st1)
      | some newDevice =>
          match getVirtualDiskUUIDByDevice newDevice with
          | Except.error e => (Except.error e, st1)
          | Except.ok diskUUID => (Except.ok (newDevice.name, diskUUID), st1)

/-- DeleteController (lines 266-292): entry is recorded as an observable
cleanup call; fetches the device list, selects the last device of the
controller's type, and removes it. The vm-nil check of the source cannot
fire in this model and is omitted; the controller-nil check is kept. -/
def DeleteController (env : Env) (st : St) (controllerDevice : Option Device) :
    Except VCErr Unit × St :=
  let st0 := emit Effect.deleteControllerCall st
  match controllerDevice with
  | none => (Except.error VCErr.nilController, st0)
  | some ctrl =>
      match getDevicesOp env st0 with
      | (Except.error e, st1) => (Except.error e, st1)
      | (Except.ok vmDevices, st1) =>
          let controllerDeviceList :=
            vmDevices.filter (fun d => d.typeName == ctrl.typeName)
          match controllerDeviceList.getLast? with
          | none => (Except.error VCErr.errNoDevicesFound, st1)
          | some device => removeDeviceOp env st1 device

/-- DetachDisk (lines 222-246): entry recorded; fetches devices, resolves
the attached disk identifier, finds the device by that name, removes it. -/
def DetachDisk (env : Env) (st : St) (vmDiskPath : String) :
    Except VCErr Unit × St :=
  let st0 := emit (Effect.detachDiskCall vmDiskPath) st
  match getDevicesOp env st0 with
  | (Except.error e, st1) => (Except.error e, st1)
  | (Except.ok vmDevices, st1) =>
      match GetVirtualDiskID env st1 vmDiskPath with
      | (Except.error e, st2) => (Except.error e, st2)
      | (Except.ok diskID, st2) =>
          match vmDevices.find? (fun d => d.name == diskID) with
          | none => (Except.error (VCErr.deviceNotFound diskID), st2)
          | some device => removeDeviceOp env st2 device

/-- createAndAttachSCSIController (lines 316-348): fetch the device list;
fail with the limit error when the SCSI-controller count is at or above
SCSIControllerLimit (before any creation); otherwise create the controller
locally (recorded), set hot-add/remove true and no-sharing, register it
with the VM via AddDevice, attempting DeleteController cleanup when the
registration fails. -/
def createAndAttachSCSIController (env : Env) (st : St)
    (diskControllerType : String) : Except VCErr Device × St :=
  match getDevicesOp env st with
  | (Except.error e, st1) => (Except.error e, st1)
  | (Except.ok vmDevices, st1) =>
      if SCSIControllerLimit ≤ (getSCSIControllers vmDevices).length then
        (Except.error VCErr.scsiControllerLimitReached, st1)
      else
        let st2 := emit (Effect.createSCSIControllerCall diskControllerType) st1
        match createSCSIControllerDevice diskControllerType with
        | none => (Except.error VCErr.createControllerFailed, st2)
        | some base =>
            let newSCSIController :=
              { base with hotAddRemove := some true, sharedBus := "noSharing" }
            match addDeviceOp env st2 newSCSIController with
            | (true, st3) => (Except.ok newSCSIController, st3)
            | (false, st3) =>
                let st4 := (DeleteController env st3 (some newSCSIController)).2
                (Except.error VCErr.addDeviceFailed, st4)

/-! ## Disk spec construction (vclib createDiskSpec, not under src/) -/

/-- Modelled from the spec: the controllers of the requested bus type
(controller selection collaborators of createDiskSpec, not under src/). -/
def getSCSIControllersOfType (vmDevices : List Device) (scsiType : String) :
    List Device :=
  vmDevices.filter (fun d => d.typeName == scsiType)

/-- Modelled from the spec: a controller with spare slot capacity. -/
def getAvailableSCSIController (ctlrs : List Device) : Option Device :=
  (ctlrs.filter (fun d => d.capacityUsed < SCSIControllerDeviceLimit)).head?

/-- Modelled from govmomi VirtualDeviceList.CreateDisk: a local disk device
spec for the given path, hosted by the given controller. -/
def mkDiskDevice (diskPath : String) (ctrlKey : Int) : Device :=
  { name := diskPath, key := -2, controllerKey := ctrlKey,
    typeName := "VirtualDisk", backing := none, hotAddRemove := none,
    sharedBus := "", capacityUsed := 0 }

/-- VolumeOptions (vclib, not under src/): the option fields the excerpt
reads - the requested controller type (createDiskSpec) and the three
storage-policy fields plus disk format (diskmanagers). -/
structure VolumeOptions where
  scsiControllerType : String
  storagePolicyName : String
  vsanStorageProfileData : String
  storagePolicyID : String
  diskFormat : String
deriving DecidableEq

/-- Modelled from the spec: createDiskSpec (vclib, not under src/), the
NEEDS_CONTROLLER step of the orchestrator - fetch the device list, select
an available controller of the requested type, creating and registering a
new one (tracked for rollback) when none is available; after a creation,
the list is re-fetched and the controller looked up again, rolling the new
controller back when it cannot be found. Returns the disk device spec and
the newly created controller, if any. -/
def createDiskSpec (env : Env) (st : St) (vmDiskPath : String)
    (volumeOptions : VolumeOptions) :
    Except VCErr (Device × Option Device) × St :=
  match getDevicesOp env st with
  | (Except.error e, st1) => (Except.error e, st1)
  | (Except.ok vmDevices, st1) =>
      match getAvailableSCSIController
          (getSCSIControllersOfType vmDevices volumeOptions.scsiControllerType) with
      | some scsiController =>
          (Except.ok (mkDiskDevice vmDiskPath scsiController.key, none), st1)
      | none =>
          match createAndAttachSCSIController env st1
              volumeOptions.scsiControllerType with
          | (Except.error e, st2) => (Except.error e, st2)
          | (Except.ok newSCSIController, st2) =>
              match getDevicesOp env st2 with
              | (Except.error e, st3) =>
                  let st4 := (DeleteController env st3 (some newSCSIController)).2
                  (Except.error e, st4)
              | (Except.ok vmDevices2, st3) =>
                  match getAvailableSCSIController
                      (getSCSIControllersOfType vmDevices2
                        volumeOptions.scsiControllerType) with
                  | none =>
                      let st4 :=
                        (DeleteController env st3 (some newSCSIController)).2
                      (Except.error VCErr.cannotFindController, st4)
                  | some scsiController =>
                      (Except.ok (mkDiskDevice vmDiskPath scsiController.key,
                        some newSCSIController), st3)

/-! ## AttachDisk (lines 130-194) -/

/-- Result of AttachDisk. The source's already-attached return (line 145)
carries only a disk UUID, while the success return (line 193) carries the
device name and the disk UUID; the two success shapes are kept as distinct
constructors. -/
inductive AttachResult where
  | alreadyAttached (diskUUID : String)
  | attached (deviceName diskUUID : String)
  | error (e : VCErr)
deriving DecidableEq

/-- The rollback guard of AttachDisk (lines 170-172, 178-180, 187-189):
when a controller was newly created in this request, issue a best-effort
DeleteController, discarding its result. -/
def cleanupIfNew (env : Env) (st : St) (newSCSIController : Option Device) : St :=
  match newSCSIController with
  | none => st
  | some c => (DeleteController env st (some c)).2

/-- AttachDisk (lines 130-194): validate the controller type locally,
short-circuit when the disk is already attached (re-resolving the UUID by
path with the error discarded, line 144), otherwise build the disk spec,
submit a reconfiguration (with a profile spec exactly when the storage
policy id is nonempty), wait for the task, and read back the new disk's
name and UUID; on failure after a controller was created, the controller
is rolled back and the original error returned. -/
def AttachDisk (env : Env) (st : St)
    (vmDiskPath storagePolicyID diskControllerType : String) :
    AttachResult × St :=
  if CheckControllerSupported diskControllerType then
    match IsDiskAttached env st vmDiskPath with
    | (Except.error e, st1) => (AttachResult.error e, st1)
    | (Except.ok true, st1) =>
        match GetVirtualDiskUUIDByPath env st1 vmDiskPath with
        | (Except.ok diskUUID, st2) => (AttachResult.alreadyAttached diskUUID, st2)
        | (Except.error _, st2) => (AttachResult.alreadyAttached "", st2)
    | (Except.ok false, st1) =>
        match createDiskSpec env st1 vmDiskPath
            { scsiControllerType := diskControllerType, storagePolicyName := "",
              vsanStorageProfileData := "", storagePolicyID := "",
              diskFormat := "" } with
        | (Except.error e, st2) => (AttachResult.error e, st2)
        | (Except.ok (disk, newSCSIController), st2) =>
            match reconfigureOp env st2 (storagePolicyID != "") with
            | (false, st3) =>
                (AttachResult.error VCErr.reconfigureFailed,
                  cleanupIfNew env st3 newSCSIController)
            | (true, st3) =>
                match taskWaitOp env st3 with
                | (false, st4) =>
                    (AttachResult.error VCErr.taskWaitFailed,
                      cleanupIfNew env st4 newSCSIController)
                | (true, st4) =>
                    match GetVMDiskInfo env st4 disk with
                    | (Except.error e, st5) =>
                        let st6 := cleanupIfNew env st5 newSCSIController
                        (AttachResult.error e, (DetachDisk env st6 vmDiskPath).2)
                    | (Except.ok (deviceName, diskUUID), st5) =>
                        (AttachResult.attached deviceName diskUUID, st5)
  else
    (AttachResult.error VCErr.notSupported, st)

/-! ## Disk-manager dispatcher (diskmanagers, src/unnamed/part_000) -/

/-- The two provisioning strategies getDiskManager may select. -/
inductive DiskManagerKind where
  | virtualDiskManager
  | vmDiskManager
deriving DecidableEq

/-- The diskmanagers VirtualDisk record (disk path and volume options; the
VM options collaborator carries no data read by getDiskManager). -/
structure VirtualDisk where
  diskPath : String
  volumeOptions : VolumeOptions
deriving DecidableEq

def VirtualDiskCreateOperation : String := "Create"

def VirtualDiskDeleteOperation : String := "Delete"

/-- getDiskManager (diskmanagers lines 378-391): Delete always selects the
plain virtualDiskManager; Create selects the policy-aware vmDiskManager
exactly when one of the storage-policy name, VSAN profile data or
storage-policy id is nonempty; any other operation string selects nothing
(the source's switch leaves the provider nil). -/
def getDiskManager (disk : VirtualDisk) (diskOperation : String) :
    Option DiskManagerKind :=
  if diskOperation == VirtualDiskDeleteOperation then
    some DiskManagerKind.virtualDiskManager
  else if diskOperation == VirtualDiskCreateOperation then
    if disk.volumeOptions.storagePolicyName != "" ||
        disk.volumeOptions.vsanStorageProfileData != "" ||
        disk.volumeOptions.storagePolicyID != "" then
      some DiskManagerKind.vmDiskManager
    else
      some DiskManagerKind.virtualDiskManager
  else
    none

/-! ## Trace bookkeeping lemmas -/

theorem trace_getDevicesOp (env : Env) (st : St) :
    ((getDevicesOp env st).2).trace = st.trace := by
  unfold getDevicesOp
  cases h : env.devices st.time <;> simp [h, tick]

theorem trace_GetVirtualDiskUUIDByPath (env : Env) (st : St) (p : String) :
    ((GetVirtualDiskUUIDByPath env st p).2).trace = st.trace := by
  unfold GetVirtualDiskUUIDByPath queryUuidOp
  cases h : env.queryUuid st.time (withVmdkExt p) <;> simp [h, tick]

theorem trace_getVirtualDeviceByPath (env : Env) (st : St) (ds : List Device)
    (p : String) :
    ((getVirtualDeviceByPath env st ds p).2).trace = st.trace := by
  unfold getVirtualDeviceByPath
  rcases h : GetVirtualDiskUUIDByPath env st p with ⟨r, st1⟩
  have := trace_GetVirtualDiskUUIDByPath env st p
  rw [h] at this
  cases r <;> simpa [h] using this

theorem trace_GetVirtualDiskID (env : Env) (st : St) (p : String) :
    ((GetVirtualDiskID env st p).2).trace = st.trace := by
  unfold GetVirtualDiskID
  rcases h1 : getDevicesOp env st with ⟨r1, st1⟩
  have e1 : st1.trace = st.trace := by
    have := trace_getDevicesOp env st
    rw [h1] at this
    exact this
  cases r1 with
  | error e => simpa using e1
  | ok ds =>
      rcases h2 : getVirtualDeviceByPath env st1 ds p with ⟨r2, st2⟩
      have e2 : st2.trace = st1.trace := by
        have := trace_getVirtualDeviceByPath env st1 ds p
        rw [h2] at this
        exact this
      cases r2 with
      | error e => simp [h2, e2, e1]
      | ok o => cases o <;> simp [h2, e2, e1]

theorem trace_removeDeviceOp (env : Env) (st : St) (d : Device) :
    ((removeDeviceOp env st d).2).trace =
      st.trace ++ [Effect.removeDeviceCall d] := by
  unfold removeDeviceOp
  by_cases h : env.removeDeviceOk st.time = true <;> simp [h, tick, emit]

theorem trace_DeleteController (env : Env) (st : St) (c : Option Device) :
    ∃ extra, ((DeleteController env st c).2).trace =
      st.trace ++ Effect.deleteControllerCall :: extra := by
  unfold DeleteController
  cases c with
  | none => exact ⟨[], by simp [emit]⟩
  | some ctrl =>
      rcases h1 : getDevicesOp env (emit Effect.deleteControllerCall st) with ⟨r1, st1⟩
      have e1 := trace_getDevicesOp env (emit Effect.deleteControllerCall st)
      rw [h1] at e1
      simp only [emit] at e1
      cases r1 with
      | error e => exact ⟨[], by simp [h1, e1]⟩
      | ok ds =>
          cases h2 : (ds.filter (fun d => d.typeName == ctrl.typeName)).getLast? with
          | none => exact ⟨[], by simp [h1, h2, e1]⟩
          | some device =>
              refine ⟨[Effect.removeDeviceCall device], ?_⟩
              have e2 := trace_removeDeviceOp env st1 device
              simp [h1, h2, e2, e1]

theorem trace_DetachDisk (env : Env) (st : St) (p : String) :
    ∃ extra, ((DetachDisk env st p).2).trace = st.trace ++ extra := by
  unfold DetachDisk
  rcases h1 : getDevicesOp env (emit (Effect.detachDiskCall p) st) with ⟨r1, st1⟩
  have e1 := trace_getDevicesOp env (emit (Effect.detachDiskCall p) st)
  rw [h1] at e1
  simp only [emit] at e1
  cases r1 with
  | error e => exact ⟨[Effect.detachDiskCall p], by simp [h1, e1]⟩
  | ok ds =>
      rcases h2 : GetVirtualDiskID env st1 p with ⟨r2, st2⟩
      have e2 : st2.trace = st1.trace := by
        have := trace_GetVirtualDiskID env st1 p
        rw [h2] at this
        exact this
      cases r2 with
      | error e => exact ⟨[Effect.detachDiskCall p], by simp [h1, h2, e2, e1]⟩
      | ok diskID =>
          cases h3 : ds.find? (fun d => d.name == diskID) with
          | none => exact ⟨[Effect.detachDiskCall p], by simp [h1, h2, h3, e2, e1]⟩
          | some device =>
              refine ⟨Effect.detachDiskCall p :: [Effect.removeDeviceCall device], ?_⟩
              have e3 := trace_removeDeviceOp env st2 device
              simp [h1, h2, h3, e3, e2, e1]

theorem trace_cleanupIfNew (env : Env) (st : St) (c : Device) :
    ∃ extra, (cleanupIfNew env st (some c)).trace =
      st.trace ++ Effect.deleteControllerCall :: extra := by
  unfold cleanupIfNew
  exact trace_DeleteController env st (some c)

theorem mem_trace_DeleteController (env : Env) (st : St) (c : Option Device)
    (e : Effect) (h : e ∈ st.trace) :
    e ∈ ((DeleteController env st c).2).trace := by
  obtain ⟨ex, hex⟩ := trace_DeleteController env st c
  rw [hex]
  simp [List.mem_append, h]

theorem mem_trace_DetachDisk (env : Env) (st : St) (p : String)
    (e : Effect) (h : e ∈ st.trace) :
    e ∈ ((DetachDisk env st p).2).trace := by
  obtain ⟨ex, hex⟩ := trace_DetachDisk env st p
  rw [hex]
  simp [List.mem_append, h]

/-! ## C6: unsupported controller type fails before any remote call -/

/-- C6: for every controller type outside the supported set, AttachDisk
fails with the unsupported-configuration error and the state is returned
untouched: the clock has not advanced (no remote call of any kind was
issued) and the trace is unchanged. The controller-type check is the first
operation of AttachDisk (lines 135-137). -/
theorem c6_unsupported_type_fails_fast (env : Env) (st : St)
    (vmDiskPath storagePolicyID diskControllerType : String)
    (h : CheckControllerSupported diskControllerType = false) :
    AttachDisk env st vmDiskPath storagePolicyID diskControllerType =
      (AttachResult.error VCErr.notSupported, st) := by
  simp [AttachDisk, h]

/-- A fully specified environment for witnesses: empty VM, all remote
calls succeed, no path resolves. -/
def envEmptyVM : Env :=
  { devices := fun _ => some []
    queryUuid := fun _ _ => none
    reconfigureOk := fun _ => true
    taskWaitOk := fun _ => true
    addDeviceOk := fun _ => true
    removeDeviceOk := fun _ => true }

theorem c6_unsupported_type_fails_fast_witness :
    CheckControllerSupported "ide" = false ∧
      AttachDisk envEmptyVM ⟨0, []⟩ "[ds] kubevols/a.vmdk" "" "ide" =
        (AttachResult.error VCErr.notSupported, ⟨0, []⟩) :=
  ⟨by decide,
    c6_unsupported_type_fails_fast envEmptyVM ⟨0, []⟩ "[ds] kubevols/a.vmdk" ""
      "ide" (by decide)⟩

/-! ## C7: strategy dispatch -/

/-- C7: for every VirtualDisk, the Delete operation always dispatches to
the plain virtualDiskManager regardless of volume options, and the Create
operation dispatches to the policy-aware vmDiskManager exactly when one of
the storage-policy name, VSAN profile data or storage-policy id fields is
nonempty, and to the plain manager exactly otherwise. -/
theorem c7_strategy_dispatch (disk : VirtualDisk) :
    getDiskManager disk VirtualDiskDeleteOperation =
        some DiskManagerKind.virtualDiskManager ∧
      (getDiskManager disk VirtualDiskCreateOperation =
          some DiskManagerKind.vmDiskManager ↔
        (disk.volumeOptions.storagePolicyName ≠ "" ∨
          disk.volumeOptions.vsanStorageProfileData ≠ "" ∨
          disk.volumeOptions.storagePolicyID ≠ "")) ∧
      (getDiskManager disk VirtualDiskCreateOperation =
          some DiskManagerKind.virtualDiskManager ↔
        (disk.volumeOptions.storagePolicyName = "" ∧
          disk.volumeOptions.vsanStorageProfileData = "" ∧
          disk.volumeOptions.storagePolicyID = "")) := by
  refine ⟨rfl, ?_, ?_⟩ <;>
    rcases eq_or_ne disk.volumeOptions.storagePolicyName "" with h1 | h1 <;>
    rcases eq_or_ne disk.volumeOptions.vsanStorageProfileData "" with h2 | h2 <;>
    rcases eq_or_ne disk.volumeOptions.storagePolicyID "" with h3 | h3 <;>
    simp [getDiskManager, VirtualDiskCreateOperation, VirtualDiskDeleteOperation,
      h1, h2, h3]

/-! ## C3: controller limit -/

/-- C3: with the device list the creation routine reads, the routine fails
with the resource-exhausted error exactly when the SCSI-controller count
is at or above SCSIControllerLimit; in that case it returns right after
the device read, with no creation attempted (the trace is unchanged); and
whenever the count is below the limit the creation call is made (the
creation effect enters the trace). -/
theorem c3_controller_limit (env : Env) (st : St) (diskControllerType : String)
    (ds : List Device) (hdev : env.devices st.time = some ds) :
    ((createAndAttachSCSIController env st diskControllerType).1 =
        Except.error VCErr.scsiControllerLimitReached ↔
      SCSIControllerLimit ≤ (getSCSIControllers ds).length) ∧
      (SCSIControllerLimit ≤ (getSCSIControllers ds).length →
        createAndAttachSCSIController env st diskControllerType =
          (Except.error VCErr.scsiControllerLimitReached, tick st)) ∧
      ((getSCSIControllers ds).length < SCSIControllerLimit →
        Effect.createSCSIControllerCall diskControllerType ∈
          (createAndAttachSCSIController env st diskControllerType).2.trace) := by
  refine ⟨⟨fun hres => ?_, fun h => ?_⟩, fun h => ?_, fun hlt => ?_⟩
  · by_contra hgt
    rcases hcr : createSCSIControllerDevice diskControllerType with _ | base
    · simp [createAndAttachSCSIController, getDevicesOp, hdev, hgt, hcr] at hres
    · cases hadd : env.addDeviceOk (st.time + 1) with
      | false =>
          simp [createAndAttachSCSIController, getDevicesOp, hdev, hgt, hcr,
            addDeviceOp, emit, tick, hadd] at hres
      | true =>
          simp [createAndAttachSCSIController, getDevicesOp, hdev, hgt, hcr,
            addDeviceOp, emit, tick, hadd] at hres
  · simp [createAndAttachSCSIController, getDevicesOp, hdev, h]
  · simp [createAndAttachSCSIController, getDevicesOp, hdev, h]
  · have hgt : ¬ SCSIControllerLimit ≤ (getSCSIControllers ds).length :=
      not_le.mpr hlt
    rcases hcr : createSCSIControllerDevice diskControllerType with _ | base
    · simp [createAndAttachSCSIController, getDevicesOp, hdev, hgt, hcr,
        emit, tick]
    · cases hadd : env.addDeviceOk (st.time + 1) with
      | true =>
          simp [createAndAttachSCSIController, getDevicesOp, hdev, hgt, hcr,
            addDeviceOp, emit, tick, hadd]
      | false =>
          simp only [createAndAttachSCSIController, getDevicesOp, hdev, hgt,
            addDeviceOp, emit, tick, hadd, hcr, if_false]
          apply mem_trace_DeleteController
          simp [emit, tick]

/-- A VM already holding SCSIControllerLimit controllers. -/
def envFullControllers : Env :=
  { devices := fun _ => some (List.replicate 4
      { name := "pvscsi", key := 1000, controllerKey := 0, typeName := "pvscsi",
        backing := none, hotAddRemove := some true, sharedBus := "noSharing",
        capacityUsed := 0 })
    queryUuid := fun _ _ => none
    reconfigureOk := fun _ => true
    taskWaitOk := fun _ => true
    addDeviceOk := fun _ => true
    removeDeviceOk := fun _ => true }

theorem c3_controller_limit_witness :
    (createAndAttachSCSIController envFullControllers ⟨0, []⟩ "pvscsi" =
        (Except.error VCErr.scsiControllerLimitReached, tick ⟨0, []⟩)) ∧
      Effect.createSCSIControllerCall "pvscsi" ∈
        (createAndAttachSCSIController envEmptyVM ⟨0, []⟩ "pvscsi").2.trace :=
  ⟨(c3_controller_limit envFullControllers ⟨0, []⟩ "pvscsi" _ rfl).2.1 (by decide),
    (c3_controller_limit envEmptyVM ⟨0, []⟩ "pvscsi" [] rfl).2.2 (by decide)⟩

/-! ## C9: controller creation, configuration and registration -/

/-- C9 counterexample: the claim states the newly created controller is
returned unregistered with the VM, registration being a separate remote
call performed by the orchestrator rather than by the controller-creation
routine itself. In this concrete successful run,
createAndAttachSCSIController's own trace contains the AddDevice
registration call (src lines 339-346): the routine registers the
controller with the VM itself before returning it. -/
theorem c9_counterexample :
    createAndAttachSCSIController envEmptyVM ⟨0, []⟩ "pvscsi" =
        (Except.ok
          { name := "new-controller", key := -1, controllerKey := 0,
            typeName := "pvscsi", backing := none, hotAddRemove := some true,
            sharedBus := "noSharing", capacityUsed := 0 },
          ⟨2, [Effect.createSCSIControllerCall "pvscsi",
            Effect.addDeviceCall
              { name := "new-controller", key := -1, controllerKey := 0,
                typeName := "pvscsi", backing := none, hotAddRemove := some true,
                sharedBus := "noSharing", capacityUsed := 0 }]⟩) ∧
      Effect.addDeviceCall
          { name := "new-controller", key := -1, controllerKey := 0,
            typeName := "pvscsi", backing := none, hotAddRemove := some true,
            sharedBus := "noSharing", capacityUsed := 0 } ∈
        (createAndAttachSCSIController envEmptyVM ⟨0, []⟩ "pvscsi").2.trace := by
  exact ⟨by decide, by decide⟩

/-- C9 (amended): when controller creation succeeds, the controller device
handed back by the device-list collaborator's creation step is configured
with hot-add/remove set to true and sharing set to no-sharing before
registration, and createAndAttachSCSIController itself then registers it
with the VM through the separate AddDevice remote call before returning
it - the registration is not left to the orchestrator. -/
theorem c9_controller_created_configured (env : Env) (st : St)
    (diskControllerType : String) (ds : List Device) (base : Device)
    (hdev : env.devices st.time = some ds)
    (hlim : (getSCSIControllers ds).length < SCSIControllerLimit)
    (hcr : createSCSIControllerDevice diskControllerType = some base)
    (hadd : env.addDeviceOk (st.time + 1) = true) :
    createAndAttachSCSIController env st diskControllerType =
      (Except.ok { base with hotAddRemove := some true, sharedBus := "noSharing" },
        ⟨st.time + 2, st.trace ++
          [Effect.createSCSIControllerCall diskControllerType,
            Effect.addDeviceCall { base with hotAddRemove := some true, sharedBus := "noSharing" }]⟩) := by
  have hgt : ¬ SCSIControllerLimit ≤ (getSCSIControllers ds).length :=
    not_le.mpr hlim
  simp [createAndAttachSCSIController, getDevicesOp, hdev, hgt, hcr,
    addDeviceOp, emit, tick, hadd]

/-- The unconfigured controller device produced by the local creation step
for the pvscsi bus type. -/
def basePVSCSI : Device :=
  { name := "new-controller", key := -1, controllerKey := 0,
    typeName := "pvscsi", backing := none, hotAddRemove := none,
    sharedBus := "", capacityUsed := 0 }

theorem c9_controller_created_configured_witness :
    createAndAttachSCSIController envEmptyVM ⟨0, []⟩ "pvscsi" =
      (Except.ok
        { basePVSCSI with hotAddRemove := some true, sharedBus := "noSharing" },
        ⟨2, [Effect.createSCSIControllerCall "pvscsi",
          Effect.addDeviceCall { basePVSCSI with hotAddRemove := some true, sharedBus := "noSharing" }]⟩) := by
  have h := c9_controller_created_configured envEmptyVM ⟨0, []⟩ "pvscsi" []
    basePVSCSI rfl (by decide) (by decide) rfl
  exact h.trans (by decide)

/-! ## C10: the already-attached branch discards the re-resolution error -/

/-- C10: in the already-attached branch of AttachDisk (lines 143-146) the
error from re-resolving the disk's UUID by path is discarded: whenever the
attached-check reports true but the subsequent UUID query fails, AttachDisk
returns the empty UUID string together with success (nil error), rather
than the existing UUID or an error. -/
theorem c10_attached_branch_discards_error (env : Env) (st st1 : St)
    (vmDiskPath storagePolicyID diskControllerType : String)
    (hty : CheckControllerSupported diskControllerType = true)
    (hatt : IsDiskAttached env st vmDiskPath = (Except.ok true, st1))
    (hq : env.queryUuid st1.time (withVmdkExt vmDiskPath) = none) :
    AttachDisk env st vmDiskPath storagePolicyID diskControllerType =
      (AttachResult.alreadyAttached "", tick st1) := by
  simp [AttachDisk, hty, hatt, GetVirtualDiskUUIDByPath, queryUuidOp, hq]

/-- A disk attached to the VM with backing UUID "52 ab-cd". -/
def diskAttached52 : Device :=
  { name := "disk-att", key := 2000, controllerKey := 1000,
    typeName := "VirtualDisk", backing := some "52 ab-cd",
    hotAddRemove := none, sharedBus := "", capacityUsed := 0 }

/-- An environment whose UUID query succeeds during the attached-check
(times 0-1) and fails afterwards: the already-attached short-circuit then
re-resolves into a failure whose error the source discards. -/
def envFlakyQuery : Env :=
  { devices := fun _ => some [diskAttached52]
    queryUuid := fun t q =>
      if t ≤ 1 && q == "[ds] kubevols/a.vmdk" then some "52 ab-cd" else none
    reconfigureOk := fun _ => true
    taskWaitOk := fun _ => true
    addDeviceOk := fun _ => true
    removeDeviceOk := fun _ => true }

theorem c10_attached_branch_discards_error_witness :
    IsDiskAttached envFlakyQuery ⟨0, []⟩ "[ds] kubevols/a.vmdk" =
        (Except.ok true, ⟨2, []⟩) ∧
      envFlakyQuery.queryUuid 2 (withVmdkExt "[ds] kubevols/a.vmdk") = none ∧
      AttachDisk envFlakyQuery ⟨0, []⟩ "[ds] kubevols/a.vmdk" "" "pvscsi" =
        (AttachResult.alreadyAttached "", tick ⟨2, []⟩) :=
  ⟨by decide, by decide,
    c10_attached_branch_discards_error envFlakyQuery ⟨0, []⟩ ⟨2, []⟩
      "[ds] kubevols/a.vmdk" "" "pvscsi" (by decide) (by decide) (by decide)⟩

/-! ## C2: controller rollback on any later failure -/

/-- C2: for every AttachDisk run whose disk-spec step created a new SCSI
controller, if the reconfiguration submission fails, the task wait fails,
or the disk-info lookup fails, then a DeleteController cleanup call is
issued (its effect is in the returned trace) before the error is returned,
and the error returned is the original failure. The environment is
unconstrained at and after the cleanup, so cleanup failures cannot change
the returned error (the source discards DeleteController's result at lines
171, 179 and 188). -/
theorem c2_cleanup_on_failure (env : Env) (st st1 st2 : St)
    (vmDiskPath storagePolicyID diskControllerType : String)
    (disk ctrl : Device)
    (hty : CheckControllerSupported diskControllerType = true)
    (hatt : IsDiskAttached env st vmDiskPath = (Except.ok false, st1))
    (hspec : createDiskSpec env st1 vmDiskPath
        { scsiControllerType := diskControllerType, storagePolicyName := "",
          vsanStorageProfileData := "", storagePolicyID := "",
          diskFormat := "" } = (Except.ok (disk, some ctrl), st2)) :
    (env.reconfigureOk st2.time = false →
      ∃ stf, AttachDisk env st vmDiskPath storagePolicyID diskControllerType =
          (AttachResult.error VCErr.reconfigureFailed, stf) ∧
        Effect.deleteControllerCall ∈ stf.trace) ∧
      (env.reconfigureOk st2.time = true →
        env.taskWaitOk (st2.time + 1) = false →
        ∃ stf, AttachDisk env st vmDiskPath storagePolicyID diskControllerType =
            (AttachResult.error VCErr.taskWaitFailed, stf) ∧
          Effect.deleteControllerCall ∈ stf.trace) ∧
      (∀ (e : VCErr) (st5 : St),
        env.reconfigureOk st2.time = true →
        env.taskWaitOk (st2.time + 1) = true →
        GetVMDiskInfo env
            (tick (tick (emit
              (Effect.reconfigureSubmit (storagePolicyID != "")) st2))) disk =
          (Except.error e, st5) →
        ∃ stf, AttachDisk env st vmDiskPath storagePolicyID diskControllerType =
            (AttachResult.error e, stf) ∧
          Effect.deleteControllerCall ∈ stf.trace) := by
  have ht3 : (tick (emit
      (Effect.reconfigureSubmit (storagePolicyID != "")) st2)).time =
      st2.time + 1 := rfl
  refine ⟨fun hrc => ?_, fun hrc htw => ?_, fun e st5 hrc htw hinfo => ?_⟩
  · refine ⟨cleanupIfNew env
      (tick (emit (Effect.reconfigureSubmit (storagePolicyID != "")) st2))
      (some ctrl), ?_, ?_⟩
    · simp [AttachDisk, hty, hatt, hspec, reconfigureOp, hrc]
    · obtain ⟨ex, hex⟩ := trace_cleanupIfNew env
        (tick (emit (Effect.reconfigureSubmit (storagePolicyID != "")) st2)) ctrl
      rw [hex]
      simp
  · refine ⟨cleanupIfNew env
      (tick (tick (emit (Effect.reconfigureSubmit (storagePolicyID != "")) st2)))
      (some ctrl), ?_, ?_⟩
    · simp [AttachDisk, hty, hatt, hspec, reconfigureOp, hrc, taskWaitOp,
        ht3, htw]
    · obtain ⟨ex, hex⟩ := trace_cleanupIfNew env
        (tick (tick (emit (Effect.reconfigureSubmit (storagePolicyID != "")) st2)))
        ctrl
      rw [hex]
      simp
  · refine ⟨(DetachDisk env (cleanupIfNew env st5 (some ctrl)) vmDiskPath).2,
      ?_, ?_⟩
    · simp [AttachDisk, hty, hatt, hspec, reconfigureOp, hrc, taskWaitOp,
        ht3, htw, hinfo]
    · refine mem_trace_DetachDisk env _ vmDiskPath _ ?_
      obtain ⟨ex, hex⟩ := trace_cleanupIfNew env st5 ctrl
      rw [hex]
      simp

/-- An available pvscsi controller already attached to the VM. -/
def pvCtrlAvailable : Device :=
  { name := "pvscsi-ctl", key := 1000, controllerKey := 0,
    typeName := "pvscsi", backing := none, hotAddRemove := some true,
    sharedBus := "noSharing", capacityUsed := 0 }

/-- The registered configuration of the freshly created pvscsi controller. -/
def ctrlPVSCSIRegistered : Device :=
  { basePVSCSI with hotAddRemove := some true, sharedBus := "noSharing" }

/-- The disk path used by the orchestration witnesses. -/
def attachPath : String := "[ds] kubevols/a.vmdk"

/-- An environment in which the VM starts empty, a controller is created
and registered during the disk-spec step (becoming visible at the re-read),
and every reconfiguration submission fails. -/
def envReconfigFail : Env :=
  { devices := fun t => if t == 5 then some [pvCtrlAvailable] else some []
    queryUuid := fun _ q => if q == attachPath then some "52 ab-cd" else none
    reconfigureOk := fun _ => false
    taskWaitOk := fun _ => true
    addDeviceOk := fun _ => true
    removeDeviceOk := fun _ => true }

theorem c2_cleanup_on_failure_witness :
    ∃ stf, AttachDisk envReconfigFail ⟨0, []⟩ attachPath "" "pvscsi" =
        (AttachResult.error VCErr.reconfigureFailed, stf) ∧
      Effect.deleteControllerCall ∈ stf.trace :=
  (c2_cleanup_on_failure envReconfigFail ⟨0, []⟩ ⟨2, []⟩
    ⟨6, [Effect.createSCSIControllerCall "pvscsi",
      Effect.addDeviceCall ctrlPVSCSIRegistered]⟩
    attachPath "" "pvscsi" (mkDiskDevice attachPath 1000) ctrlPVSCSIRegistered
    (by decide) (by decide) (by decide)).1 (by decide)

/-! ## C8: disk-info lookup after a successful attach -/

/-- The disk created by the attach request under test: its backing UUID
matches what the request's path resolves to. -/
def diskNew52 : Device :=
  { name := "disk-new", key := 2000, controllerKey := 1000,
    typeName := "VirtualDisk", backing := some "52 ab-cd",
    hotAddRemove := none, sharedBus := "", capacityUsed := 0 }

/-- A different disk that the server happens to list after the new one. -/
def diskOther99 : Device :=
  { name := "disk-other", key := 2001, controllerKey := 1000,
    typeName := "VirtualDisk", backing := some "99 ff",
    hotAddRemove := none, sharedBus := "", capacityUsed := 0 }

/-- An environment in which the attach succeeds but the re-read device
list places another virtual disk after the one this request added. -/
def envOtherDiskLast : Env :=
  { devices := fun t =>
      if t ≤ 4 then some [pvCtrlAvailable]
      else some [pvCtrlAvailable, diskNew52, diskOther99]
    queryUuid := fun _ q => if q == attachPath then some "52 ab-cd" else none
    reconfigureOk := fun _ => true
    taskWaitOk := fun _ => true
    addDeviceOk := fun _ => true
    removeDeviceOk := fun _ => true }

/-- C8 counterexample: the claim states the device returned after a
successful attach is located by type AND identity and is the one added by
this request, for every prior device-list content. Here the request's path
resolves to UUID "52 ab-cd" and the request's disk (diskNew52, with that
backing) is present in the re-read list, yet AttachDisk returns the name
and UUID of diskOther99 - the LAST type-matching device - whose UUID
differs from the request's disk's UUID: GetVMDiskInfo selects by type only
and takes the last element (lines 202-209). -/
theorem c8_counterexample :
    AttachDisk envOtherDiskLast ⟨0, []⟩ attachPath "" "pvscsi" =
        (AttachResult.attached "disk-other" (formatVirtualDiskUUID "99 ff"),
          ⟨6, [Effect.reconfigureSubmit false]⟩) ∧
      envOtherDiskLast.queryUuid 1 (withVmdkExt attachPath) = some "52 ab-cd" ∧
      diskNew52.backing = some "52 ab-cd" ∧
      formatVirtualDiskUUID "99 ff" ≠ formatVirtualDiskUUID "52 ab-cd" := by
  exact ⟨by decide, by decide, by decide, by decide⟩

/-- C8 (amended): on a successful attach the orchestrator re-reads the
device list and returns the name and canonical (formatted backing) UUID of
the LAST device in that list whose type matches the disk's type - the
selection is by type only (govmomi SelectByType), with no identity match,
so the returned device is the one added by this request only when the
server lists it last. -/
theorem c8_attach_returns_last_typed_device (env : Env) (st st1 st2 : St)
    (vmDiskPath storagePolicyID diskControllerType : String)
    (disk : Device) (newCtrl : Option Device) (ds5 : List Device)
    (dLast : Device) (u : String)
    (hty : CheckControllerSupported diskControllerType = true)
    (hatt : IsDiskAttached env st vmDiskPath = (Except.ok false, st1))
    (hspec : createDiskSpec env st1 vmDiskPath
        { scsiControllerType := diskControllerType, storagePolicyName := "",
          vsanStorageProfileData := "", storagePolicyID := "",
          diskFormat := "" } = (Except.ok (disk, newCtrl), st2))
    (hrc : env.reconfigureOk st2.time = true)
    (htw : env.taskWaitOk (st2.time + 1) = true)
    (hdev : env.devices (st2.time + 2) = some ds5)
    (hlast : (ds5.filter (fun d => d.typeName == disk.typeName)).getLast? =
      some dLast)
    (hbk : dLast.backing = some u) :
    AttachDisk env st vmDiskPath storagePolicyID diskControllerType =
      (AttachResult.attached dLast.name (formatVirtualDiskUUID u),
        tick (tick (tick (emit
          (Effect.reconfigureSubmit (storagePolicyID != "")) st2)))) := by
  have ht3 : (tick (emit
      (Effect.reconfigureSubmit (storagePolicyID != "")) st2)).time =
      st2.time + 1 := rfl
  have ht4 : (tick (tick (emit
      (Effect.reconfigureSubmit (storagePolicyID != "")) st2))).time =
      st2.time + 2 := rfl
  simp [AttachDisk, hty, hatt, hspec, reconfigureOp, hrc, taskWaitOp, ht3, htw,
    GetVMDiskInfo, getDevicesOp, ht4, hdev, hlast, getVirtualDiskUUIDByDevice,
    hbk]

theorem c8_attach_returns_last_typed_device_witness :
    AttachDisk envOtherDiskLast ⟨0, []⟩ attachPath "" "pvscsi" =
      (AttachResult.attached diskOther99.name (formatVirtualDiskUUID "99 ff"),
        tick (tick (tick (emit
          (Effect.reconfigureSubmit (("" : String) != "")) (⟨3, []⟩ : St))))) :=
  c8_attach_returns_last_typed_device envOtherDiskLast ⟨0, []⟩ ⟨2, []⟩ ⟨3, []⟩
    attachPath "" "pvscsi" (mkDiskDevice attachPath 1000) none
    [pvCtrlAvailable, diskNew52, diskOther99] diskOther99 "99 ff"
    (by decide) (by decide) (by decide) (by decide) (by decide) (by decide)
    (by decide) (by decide)

/-! ## C1: attach idempotency -/

/-- C1: attach is idempotent. First part: whenever the disk at the given
path is already attached (the path resolves stably to a UUID and the
device list the check reads holds a matching disk device d), AttachDisk
returns that existing device's UUID through the already-attached
short-circuit, with the trace unchanged - in particular no reconfiguration
submission and no other remote write is issued. Second part: calling
AttachDisk twice with the same path against a consistent backend (the
query resolution is stable, the disk is absent before the first call, an
available controller of the requested type exists, submission and wait
succeed, and the re-read and second-call device lists append the new disk
with the resolved UUID last, with no intervening detach) returns the same
UUID from both calls - the first through the attach path, the second
through the already-attached no-op - and the two calls together submit
exactly one reconfiguration. -/
theorem c1_attach_idempotent :
    (∀ (env : Env) (st : St)
        (vmDiskPath storagePolicyID diskControllerType uuid0 : String)
        (ds : List Device) (d : Device),
      CheckControllerSupported diskControllerType = true →
      env.devices st.time = some ds →
      (∀ t, env.queryUuid t (withVmdkExt vmDiskPath) = some uuid0) →
      ds.find? (diskMatch (formatVirtualDiskUUID uuid0)) = some d →
      AttachDisk env st vmDiskPath storagePolicyID diskControllerType =
          (AttachResult.alreadyAttached (formatVirtualDiskUUID uuid0),
            ⟨st.time + 3, st.trace⟩) ∧
        devDiskUUIDOrEmpty d = formatVirtualDiskUUID uuid0) ∧
    (∀ (env : Env) (st : St)
        (vmDiskPath storagePolicyID diskControllerType uuid0 : String)
        (ds0 : List Device) (ctrl dNew : Device),
      CheckControllerSupported diskControllerType = true →
      (∀ t, env.queryUuid t (withVmdkExt vmDiskPath) = some uuid0) →
      env.devices st.time = some ds0 →
      ds0.find? (diskMatch (formatVirtualDiskUUID uuid0)) = none →
      env.devices (st.time + 2) = some ds0 →
      getAvailableSCSIController
          (getSCSIControllersOfType ds0 diskControllerType) = some ctrl →
      env.reconfigureOk (st.time + 3) = true →
      env.taskWaitOk (st.time + 4) = true →
      env.devices (st.time + 5) = some (ds0 ++ [dNew]) →
      dNew.typeName = "VirtualDisk" →
      dNew.backing = some uuid0 →
      env.devices (st.time + 6) = some (ds0 ++ [dNew]) →
      AttachDisk env st vmDiskPath storagePolicyID diskControllerType =
          (AttachResult.attached dNew.name (formatVirtualDiskUUID uuid0),
            ⟨st.time + 6, st.trace ++
              [Effect.reconfigureSubmit (storagePolicyID != "")]⟩) ∧
        AttachDisk env
            ⟨st.time + 6, st.trace ++
              [Effect.reconfigureSubmit (storagePolicyID != "")]⟩
            vmDiskPath storagePolicyID diskControllerType =
          (AttachResult.alreadyAttached (formatVirtualDiskUUID uuid0),
            ⟨st.time + 9, st.trace ++
              [Effect.reconfigureSubmit (storagePolicyID != "")]⟩)) := by
  constructor
  · intro env st vmDiskPath storagePolicyID diskControllerType uuid0 ds d
      hty hdev hq hfind
    constructor
    · have hrun : AttachDisk env st vmDiskPath storagePolicyID
          diskControllerType =
          (AttachResult.alreadyAttached (formatVirtualDiskUUID uuid0),
            tick (tick (tick st))) := by
        simp [AttachDisk, hty, IsDiskAttached, GetVirtualDiskControllerKey,
          getDevicesOp, hdev, getVirtualDeviceByPath, GetVirtualDiskUUIDByPath,
          queryUuidOp, hq, hfind]
      exact hrun
    · have hp := List.find?_some hfind
      simp [diskMatch] at hp
      exact hp.2
  · intro env st vmDiskPath storagePolicyID diskControllerType uuid0 ds0
      ctrl dNew hty hq hdev0 hnone hdev2 hctrl hrc htw hdev5 hdNewTy hbk hdev6
    have hmatch : diskMatch (formatVirtualDiskUUID uuid0) dNew = true := by
      simp [diskMatch, devDiskUUIDOrEmpty, getVirtualDiskUUIDByDevice,
        hdNewTy, hbk]
    have hfilterNew : (dNew.typeName == "VirtualDisk") = true := by
      simp [hdNewTy]
    have hatt1 : IsDiskAttached env st vmDiskPath =
        (Except.ok false, tick (tick st)) := by
      simp [IsDiskAttached, GetVirtualDiskControllerKey, getDevicesOp, hdev0,
        getVirtualDeviceByPath, GetVirtualDiskUUIDByPath, queryUuidOp, hq,
        hnone]
    have hdev2' : env.devices ((tick (tick st)).time) = some ds0 := hdev2
    have hspec1 : createDiskSpec env (tick (tick st)) vmDiskPath
        { scsiControllerType := diskControllerType, storagePolicyName := "",
          vsanStorageProfileData := "", storagePolicyID := "",
          diskFormat := "" } =
        (Except.ok (mkDiskDevice vmDiskPath ctrl.key, none),
          tick (tick (tick st))) := by
      simp [createDiskSpec, getDevicesOp, hdev2', hctrl]
    have hrc' : env.reconfigureOk ((tick (tick (tick st))).time) = true := hrc
    have htw' : env.taskWaitOk ((tick (emit
        (Effect.reconfigureSubmit (storagePolicyID != ""))
        (tick (tick (tick st))))).time) = true := htw
    have hdev5' : env.devices ((tick (tick (emit
        (Effect.reconfigureSubmit (storagePolicyID != ""))
        (tick (tick (tick st)))))).time) = some (ds0 ++ [dNew]) := hdev5
    have hcall1 : AttachDisk env st vmDiskPath storagePolicyID
        diskControllerType =
        (AttachResult.attached dNew.name (formatVirtualDiskUUID uuid0),
          tick (tick (tick (emit
            (Effect.reconfigureSubmit (storagePolicyID != ""))
            (tick (tick (tick st))))))) := by
      simp [AttachDisk, hty, hatt1, hspec1, reconfigureOp, hrc', taskWaitOp,
        htw', GetVMDiskInfo, getDevicesOp, hdev5', List.filter_append,
        List.filter, hfilterNew, mkDiskDevice, List.getLast?_concat,
        getVirtualDiskUUIDByDevice, hbk]
    refine ⟨hcall1, ?_⟩
    have hdev6' : env.devices
        ((⟨st.time + 6, st.trace ++
          [Effect.reconfigureSubmit (storagePolicyID != "")]⟩ : St).time) =
        some (ds0 ++ [dNew]) := hdev6
    have hatt2 : IsDiskAttached env
        ⟨st.time + 6, st.trace ++
          [Effect.reconfigureSubmit (storagePolicyID != "")]⟩ vmDiskPath =
        (Except.ok true, tick (tick (⟨st.time + 6, st.trace ++
          [Effect.reconfigureSubmit (storagePolicyID != "")]⟩ : St))) := by
      simp [IsDiskAttached, GetVirtualDiskControllerKey, getDevicesOp, hdev6',
        getVirtualDeviceByPath, GetVirtualDiskUUIDByPath, queryUuidOp, hq,
        List.find?_append, hnone, List.find?, hmatch]
    have hrun2 : AttachDisk env
        ⟨st.time + 6, st.trace ++
          [Effect.reconfigureSubmit (storagePolicyID != "")]⟩
        vmDiskPath storagePolicyID diskControllerType =
        (AttachResult.alreadyAttached (formatVirtualDiskUUID uuid0),
          tick (tick (tick (⟨st.time + 6, st.trace ++
            [Effect.reconfigureSubmit (storagePolicyID != "")]⟩ : St)))) := by
      simp [AttachDisk, hty, hatt2, GetVirtualDiskUUIDByPath, queryUuidOp, hq]
    exact hrun2

/-- A consistent backend: stable UUID resolution, one available pvscsi
controller, successful submission and wait, and the newly attached disk
appended last to the device list from time 5 on (no intervening detach). -/
def envConsistent : Env :=
  { devices := fun t =>
      if t ≤ 4 then some [pvCtrlAvailable]
      else some [pvCtrlAvailable, diskNew52]
    queryUuid := fun _ q => if q == attachPath then some "52 ab-cd" else none
    reconfigureOk := fun _ => true
    taskWaitOk := fun _ => true
    addDeviceOk := fun _ => true
    removeDeviceOk := fun _ => true }

theorem c1_attach_idempotent_witness :
    (AttachDisk envConsistent ⟨6, []⟩ attachPath "" "pvscsi" =
        (AttachResult.alreadyAttached (formatVirtualDiskUUID "52 ab-cd"),
          ⟨9, []⟩) ∧
      devDiskUUIDOrEmpty diskNew52 = formatVirtualDiskUUID "52 ab-cd") ∧
      (AttachDisk envConsistent ⟨0, []⟩ attachPath "" "pvscsi" =
          (AttachResult.attached diskNew52.name
            (formatVirtualDiskUUID "52 ab-cd"),
            ⟨6, [Effect.reconfigureSubmit (("" : String) != "")]⟩) ∧
        AttachDisk envConsistent
            ⟨6, [Effect.reconfigureSubmit (("" : String) != "")]⟩
            attachPath "" "pvscsi" =
          (AttachResult.alreadyAttached (formatVirtualDiskUUID "52 ab-cd"),
            ⟨9, [Effect.reconfigureSubmit (("" : String) != "")]⟩)) :=
  ⟨c1_attach_idempotent.1 envConsistent ⟨6, []⟩ attachPath "" "pvscsi"
      "52 ab-cd" [pvCtrlAvailable, diskNew52] diskNew52 (by decide)
      (by decide) (fun _ => rfl) (by decide),
    c1_attach_idempotent.2 envConsistent ⟨0, []⟩ attachPath "" "pvscsi"
      "52 ab-cd" [pvCtrlAvailable] pvCtrlAvailable diskNew52 (by decide)
      (fun _ => rfl) (by decide) (by decide) (by decide) (by decide) rfl rfl
      (by decide) rfl rfl (by decide)⟩

end VSphere
